import Mathlib

/-!
Verification of `firebase_config.py` (class `FirebaseConfig`).

The module is initialization glue around the Firebase Admin SDK plus a
sample-data seeder.  We shallowly embed it as pure Lean functions over an
explicit environment:

* `InitEnv` captures everything `initialize_firebase` observes about the
  outside world: whether `firebase_admin._apps` is non-empty, whether the
  local credential file exists, the values of the two environment
  variables, and the outcome (`Except Exn _`) of every fallible SDK or
  stdlib call the body makes (`firebase_admin.get_app`,
  `credentials.Certificate` on the file or on parsed JSON, `json.loads`,
  `credentials.ApplicationDefault`, `firebase_admin.initialize_app`,
  `firestore.client`).
* `ConfigState` is the object state (`self.app`, `self.db`,
  `self.is_initialized`).
* `SeedEnv` captures what `create_sample_data` observes: the successive
  readings of `datetime.now()` (a stream, one entry per call), the
  successive draws of `random.random()` (`random.uniform(a, b)` is
  `a + (b - a) * random()`), and the outcome of each Firestore operation
  (the limit-1 probe and every `add`).
* `Store` is the remote document store: one list per collection, in
  insertion order.

Python `try`/`except` is embedded by writing each function body as a
computation returning `Except Exn Bool` alongside the state it had built
when it finished or threw (`init_body`, `seed_body`); the public entry
points pattern-match and turn every `error` into a returned `false`,
exactly as the blanket `except Exception` clauses do.  `datetime` values
are modelled as integer seconds, Python floats as `ℚ` (the rounding
helper `py_round` implements round-half-to-even as Python's `round`
does; every property proved below depends only on its value lying
between floor and ceiling).
-/

/-- A raised Python exception, carrying its message. -/
structure Exn where
  msg : String
deriving DecidableEq

/-- Opaque handle returned by `firebase_admin.get_app` / `initialize_app`. -/
abbrev App := Nat

/-- Opaque handle returned by `firestore.client()`. -/
abbrev Db := Nat

/-- Opaque credential object built by `credentials.Certificate` or
`credentials.ApplicationDefault`. -/
abbrev Cred := Nat

/-- Opaque value produced by `json.loads`. -/
abbrev JsonVal := Nat

/-- The mutable fields of a `FirebaseConfig` object: `self.app`, `self.db`,
`self.is_initialized` (lines 12-14). -/
structure ConfigState where
  app : Option App
  db : Option Db
  is_initialized : Bool
deriving DecidableEq

/-- Everything `initialize_firebase` observes about the process environment,
including the outcome of every fallible SDK / stdlib call its body makes. -/
structure InitEnv where
  /-- whether `firebase_admin._apps` is non-empty (line 23) -/
  appsNonEmpty : Bool
  /-- whether `os.path.exists(service_account_path)` holds for the fixed
  path `firebase-service-account.json` beside the module (lines 31-32) -/
  localFileExists : Bool
  /-- `os.getenv('FIREBASE_SERVICE_ACCOUNT_KEY')`: `none` when unset -/
  fsk : Option String
  /-- `os.getenv('GOOGLE_APPLICATION_CREDENTIALS')`: `none` when unset -/
  gac : Option String
  /-- outcome of `firebase_admin.get_app()` (line 24) -/
  getApp : Except Exn App
  /-- outcome of `credentials.Certificate(service_account_path)` (line 33) -/
  certificateFile : Except Exn Cred
  /-- outcome of `json.loads` on the given string (line 42) -/
  jsonLoads : String → Except Exn JsonVal
  /-- outcome of `credentials.Certificate(service_account_info)` (line 43) -/
  certificateInfo : JsonVal → Except Exn Cred
  /-- outcome of `credentials.ApplicationDefault()` (line 52) -/
  applicationDefault : Except Exn Cred
  /-- outcome of `firebase_admin.initialize_app(cred)` (lines 34, 44, 53) -/
  initApp : Cred → Except Exn App
  /-- outcome of `firestore.client()` (lines 25, 35, 45, 54) -/
  firestoreClient : Except Exn Db

/-- Python truthiness of an `os.getenv` result: `None` and the empty string
are falsy, any other string is truthy. -/
def envTruthy : Option String → Bool
  | none => false
  | some v => !(v == "")

/-- Shared tail of every successful strategy: `self.app = <app>`, then
`self.db = firestore.client()`, then `self.is_initialized = True`, then
`return True`.  If `firestore.client()` throws, `self.app` has already been
assigned and the exception propagates with that partial state. -/
def attachApp (env : InitEnv) (s : ConfigState) (a : App) : ConfigState × Except Exn Bool :=
  let s1 : ConfigState := { s with app := some a }
  match env.firestoreClient with
  | Except.error e => (s1, Except.error e)
  | Except.ok d => ({ s1 with db := some d, is_initialized := true }, Except.ok true)

/-- `self.app = firebase_admin.initialize_app(cred)` followed by the shared
success tail; an exception from `initialize_app` leaves `self.app` unassigned. -/
def credInit (env : InitEnv) (s : ConfigState) (c : Cred) : ConfigState × Except Exn Bool :=
  match env.initApp c with
  | Except.error e => (s, Except.error e)
  | Except.ok a => attachApp env s a

/-- Method 3 and the unconfigured fall-through (lines 50-63): if
`GOOGLE_APPLICATION_CREDENTIALS` is truthy, use
`credentials.ApplicationDefault()`; otherwise print the remediation hints
and `return False`. -/
def gacBranch (env : InitEnv) (s : ConfigState) : ConfigState × Except Exn Bool :=
  if envTruthy env.gac then
    match env.applicationDefault with
    | Except.error e => (s, Except.error e)
    | Except.ok c => credInit env s c
  else (s, Except.ok false)

/-- Body of the `try:` block of `initialize_firebase` (lines 21-63): the
state reached and either the returned boolean (`ok`) or the exception that
escaped the body (`error`). -/
def init_body (env : InitEnv) (s : ConfigState) : ConfigState × Except Exn Bool :=
  if env.appsNonEmpty then
    match env.getApp with
    | Except.error e => (s, Except.error e)
    | Except.ok a => attachApp env s a
  else if env.localFileExists then
    match env.certificateFile with
    | Except.error e => (s, Except.error e)
    | Except.ok c => credInit env s c
  else
    match env.fsk with
    | some v =>
      if v = "" then gacBranch env s
      else
        match env.jsonLoads v with
        | Except.error e => (s, Except.error e)
        | Except.ok j =>
          match env.certificateInfo j with
          | Except.error e => (s, Except.error e)
          | Except.ok c => credInit env s c
    | none => gacBranch env s

/-- `initialize_firebase` (lines 19-67): the `try:` body wrapped in the
blanket `except Exception` clause, which converts any escaped exception
into a returned `False` (lines 65-67). -/
def initialize_firebase (env : InitEnv) (s : ConfigState) : ConfigState × Bool :=
  match init_body env s with
  | (s1, Except.ok b) => (s1, b)
  | (s1, Except.error _) => (s1, false)

/-- `is_available` (lines 69-71): `self.is_initialized and self.db is not None`. -/
def is_available (s : ConfigState) : Bool :=
  s.is_initialized && s.db.isSome

/-- `get_firestore_client` (lines 73-77). -/
def get_firestore_client (s : ConfigState) : Option Db :=
  if is_available s then s.db else none

/-- The field values `__init__` sets (lines 12-14) before it calls
`initialize_firebase`. -/
def initialState : ConfigState :=
  { app := none, db := none, is_initialized := false }

/-- `FirebaseConfig()` -- and hence the module-level singleton
`firebase_config = FirebaseConfig()` (line 185): `__init__` initializes the
three fields and then calls `self.initialize_firebase()` once, discarding
its boolean result (line 17). -/
def mkFirebaseConfig (env : InitEnv) : ConfigState :=
  (initialize_firebase env initialState).1

/-- Round-half-to-even on the integers, as Python's builtin `round` ties are
resolved; its value always lies between `⌊x⌋` and `⌈x⌉`, which is all the
properties below use. -/
def py_round (x : ℚ) : ℤ :=
  if x - ⌊x⌋ < 1/2 then ⌊x⌋
  else if 1/2 < x - ⌊x⌋ then ⌊x⌋ + 1
  else if 2 ∣ ⌊x⌋ then ⌊x⌋ else ⌊x⌋ + 1

/-- Python `round(x, n)`: round to `n` decimal places. -/
def roundTo (n : ℕ) (x : ℚ) : ℚ :=
  (py_round (x * 10 ^ n) : ℚ) / 10 ^ n

/-- CPython `random.uniform(a, b) = a + (b - a) * random()`, with `r` the
draw of `random.random()`. -/
def uniform (a b r : ℚ) : ℚ :=
  a + (b - a) * r

/-- A document of the `sensor_data` collection (lines 103-110);
timestamps are integer seconds. -/
structure SensorReading where
  timestamp : ℤ
  temperature : ℚ
  dissolved_oxygen : ℚ
  ammonia : ℚ
  location : String
  sensor_id : String
deriving DecidableEq

/-- A document of the `alerts` collection (lines 116-140); the `value` and
`threshold` keys are present only on the first sample alert. -/
structure Alert where
  timestamp : ℤ
  type : String
  message : String
  sensor_id : String
  value : Option ℚ
  threshold : Option ℚ
  acknowledged : Bool
deriving DecidableEq

/-- The `tank_a` tank profile (lines 149-157). -/
structure TankProfile where
  name : String
  capacity_liters : ℕ
  fish_species : String
  fish_count : ℕ
  optimal_ammonia_range : List ℚ
  optimal_temp_range : List ℚ
  optimal_do_range : List ℚ
deriving DecidableEq

/-- The `alert_thresholds` mapping (lines 159-165). -/
structure AlertThresholds where
  ammonia_min : ℚ
  ammonia_max : ℚ
  temp_min : ℚ
  temp_max : ℚ
  do_min : ℚ
  do_max : ℚ
deriving DecidableEq

/-- The `system_info` record (lines 166-171). -/
structure SystemInfo where
  installation_date : ℤ
  last_maintenance : ℤ
  next_maintenance : ℤ
  firmware_version : String
deriving DecidableEq

/-- The single document of the `system_settings` collection (lines 147-173). -/
structure SystemSettings where
  tank_settings : List (String × TankProfile)
  alert_thresholds : AlertThresholds
  system_info : SystemInfo
  created_at : ℤ
deriving DecidableEq

/-- The remote Firestore document store: one list per collection touched by
the module, in insertion order. -/
structure Store where
  sensor_data : List SensorReading
  alerts : List Alert
  system_settings : List SystemSettings
deriving DecidableEq

/-- Everything `create_sample_data` observes about the outside world: the
stream of `datetime.now()` readings (integer seconds, one entry per call,
in call order), the stream of `random.random()` draws, and the outcome of
each Firestore operation (`none` = succeeds, `some e` = raises `e`). -/
structure SeedEnv where
  /-- the value of the k-th `datetime.now()` call made inside the function -/
  clock : ℕ → ℤ
  /-- the k-th `random.random()` draw; `random.uniform` consumes one per call -/
  rand : ℕ → ℚ
  /-- outcome of `sensor_collection.limit(1).get()` (line 90) -/
  probeExn : Option Exn
  /-- outcome of `sensor_collection.add(...)` for iteration `hours_ago` (line 112) -/
  sensorAddExn : ℕ → Option Exn
  /-- outcome of `alerts_collection.add(...)` for the k-th sample alert (line 143) -/
  alertAddExn : ℕ → Option Exn
  /-- outcome of `settings_collection.add(system_settings)` (line 175) -/
  settingsAddExn : Option Exn

/-- Seconds in one hour, minute and day: `timedelta` arithmetic. -/
def hourSec : ℤ := 3600

/-- The constant `datetime(2024, 1, 15)` of line 167, as seconds since the
Unix epoch (the exact epoch convention is immaterial to every property
proved below). -/
def datetime_2024_1_15 : ℤ := 1705276800

/-- The sample reading built in iteration `hours_ago` of the loop of lines
100-110.  Iteration `h` makes the `h`-th `datetime.now()` call and the
`3h`-th, `3h+1`-st and `3h+2`-nd `random.random()` draws, in the order of
the dict literal: `timestamp`, `temperature`, `dissolved_oxygen`, `ammonia`. -/
def mkReading (env : SeedEnv) (h : ℕ) : SensorReading :=
  { timestamp := env.clock h - hourSec * (h : ℤ)
    temperature := roundTo 1 (uniform 20 30 (env.rand (3 * h)))
    dissolved_oxygen := roundTo 2 (uniform 4 12 (env.rand (3 * h + 1)))
    ammonia := roundTo 3 (uniform 0 5 (env.rand (3 * h + 2)))
    location := "Tank A"
    sensor_id := "SENSOR_001" }

/-- The three fixed sample alerts (lines 116-140); building the list makes
the 24th, 25th and 26th `datetime.now()` calls. -/
def mkAlert (env : SeedEnv) : ℕ → Alert
  | 0 =>
    { timestamp := env.clock 24 - 10 * 60
      type := "warning"
      message := "Ammonia level approaching lower threshold"
      sensor_id := "SENSOR_001"
      value := some (5/2)
      threshold := some 5
      acknowledged := false }
  | 1 =>
    { timestamp := env.clock 25 - 2 * hourSec
      type := "info"
      message := "Temperature sensor calibration completed"
      sensor_id := "SENSOR_002"
      value := none
      threshold := none
      acknowledged := true }
  | _ =>
    { timestamp := env.clock 26 - 4 * hourSec
      type := "success"
      message := "Water quality parameters optimal"
      sensor_id := "SENSOR_001"
      value := none
      threshold := none
      acknowledged := true }

/-- The `system_settings` document (lines 147-173); building it makes the
27th, 28th and 29th `datetime.now()` calls. -/
def mkSettings (env : SeedEnv) : SystemSettings :=
  { tank_settings :=
      [("tank_a",
        { name := "Tank A - Main Production"
          capacity_liters := 10000
          fish_species := "Atlantic Salmon"
          fish_count := 500
          optimal_ammonia_range := [0, 1]
          optimal_temp_range := [18, 24]
          optimal_do_range := [6, 12] })]
    alert_thresholds :=
      { ammonia_min := 0, ammonia_max := 1
        temp_min := 18, temp_max := 30
        do_min := 4, do_max := 12 }
    system_info :=
      { installation_date := datetime_2024_1_15
        last_maintenance := env.clock 27 - 3 * 86400
        next_maintenance := env.clock 28 + 27 * 86400
        firmware_version := "v2.1.3" }
    created_at := env.clock 29 }

/-- The loop of lines 100-112: one `sensor_collection.add` per element of
`range(24)`; the document is built before the `add`, so a failing `add`
leaves the store as built so far and propagates the exception. -/
def sensorLoop (env : SeedEnv) : List ℕ → Store → Store × Except Exn Unit
  | [], st => (st, Except.ok ())
  | h :: rest, st =>
    match env.sensorAddExn h with
    | some e => (st, Except.error e)
    | none =>
      sensorLoop env rest { st with sensor_data := st.sensor_data ++ [mkReading env h] }

/-- The loop of lines 142-143: one `alerts_collection.add` per sample alert. -/
def alertLoop (env : SeedEnv) : List ℕ → Store → Store × Except Exn Unit
  | [], st => (st, Except.ok ())
  | k :: rest, st =>
    match env.alertAddExn k with
    | some e => (st, Except.error e)
    | none =>
      alertLoop env rest { st with alerts := st.alerts ++ [mkAlert env k] }

/-- Body of `create_sample_data` (lines 81-178): the early unavailability
return (outside the `try:`), then the `try:` block -- limit-1 existence
probe, the 24 sensor writes, the 3 alert writes and the settings write --
ending in either the returned boolean or the exception that escaped. -/
def seed_body (env : SeedEnv) (s : ConfigState) (store : Store) :
    Store × Except Exn Bool :=
  if is_available s = false then (store, Except.ok false)
  else
    match env.probeExn with
    | some e => (store, Except.error e)
    | none =>
      if 0 < (store.sensor_data.take 1).length then (store, Except.ok true)
      else
        match sensorLoop env (List.range 24) store with
        | (st1, Except.error e) => (st1, Except.error e)
        | (st1, Except.ok _) =>
          match alertLoop env (List.range 3) st1 with
          | (st2, Except.error e) => (st2, Except.error e)
          | (st2, Except.ok _) =>
            match env.settingsAddExn with
            | some e => (st2, Except.error e)
            | none =>
              ({ st2 with system_settings := st2.system_settings ++ [mkSettings env] },
               Except.ok true)

/-- `create_sample_data` (lines 79-182): the body wrapped in the blanket
`except Exception` clause of lines 180-182, which converts any escaped
exception into a returned `False`, keeping whatever writes had happened. -/
def create_sample_data (env : SeedEnv) (s : ConfigState) (store : Store) :
    Store × Bool :=
  match seed_body env s store with
  | (st, Except.ok b) => (st, b)
  | (st, Except.error _) => (st, false)

/-- A process environment with no credential source and every SDK call
succeeding (used to instantiate theorems at concrete inputs). -/
def initEnvNoCred : InitEnv :=
  { appsNonEmpty := false, localFileExists := false, fsk := none, gac := none,
    getApp := Except.ok 0, certificateFile := Except.ok 0,
    jsonLoads := fun _ => Except.ok 0, certificateInfo := fun _ => Except.ok 0,
    applicationDefault := Except.ok 0, initApp := fun _ => Except.ok 1,
    firestoreClient := Except.ok 2 }

/-- A process environment where the local credential file exists and
`FIREBASE_SERVICE_ACCOUNT_KEY` is also set (to a non-empty string). -/
def initEnvFileAndKey : InitEnv :=
  { initEnvNoCred with localFileExists := true, fsk := some "service-account-json" }

/-- A process environment with no file, `FIREBASE_SERVICE_ACCOUNT_KEY` set to
a string `json.loads` rejects. -/
def initEnvBadJson : InitEnv :=
  { initEnvNoCred with
    fsk := some "not-json",
    jsonLoads := fun _ => Except.error (Exn.mk "Expecting value") }

/-- An already-initialized process in which `firestore.client()` throws. -/
def initEnvClientDown : InitEnv :=
  { initEnvNoCred with
    appsNonEmpty := true,
    getApp := Except.ok 7,
    firestoreClient := Except.error (Exn.mk "client down") }

/-- A seed environment in which every Firestore operation succeeds, the clock
is frozen and every random draw is one half. -/
def seedEnvOk : SeedEnv :=
  { clock := fun _ => 1700000000, rand := fun _ => 1/2,
    probeExn := none, sensorAddExn := fun _ => none,
    alertAddExn := fun _ => none, settingsAddExn := none }

/-- Like `seedEnvOk` but the limit-1 existence probe throws. -/
def seedEnvProbeFail : SeedEnv :=
  { seedEnvOk with probeExn := some (Exn.mk "probe failed") }

/-- Like `seedEnvOk` but the sensor write for `hours_ago = 5` throws. -/
def seedEnvAddFail : SeedEnv :=
  { seedEnvOk with
    sensorAddExn := fun h => if h = 5 then some (Exn.mk "write failed") else none }

/-- Like `seedEnvOk` but the second alert write throws. -/
def seedEnvAlertFail : SeedEnv :=
  { seedEnvOk with
    alertAddExn := fun k => if k = 1 then some (Exn.mk "write failed") else none }

/-- Like `seedEnvOk` but the settings write throws. -/
def seedEnvSettingsFail : SeedEnv :=
  { seedEnvOk with settingsAddExn := some (Exn.mk "write failed") }

/-- An object state in which Firebase is available. -/
def availState : ConfigState :=
  { app := some 0, db := some 2, is_initialized := true }

/-- An empty remote store. -/
def emptyStore : Store :=
  { sensor_data := [], alerts := [], system_settings := [] }

/-- A store already holding one sensor document. -/
def oneDocStore : Store :=
  { emptyStore with sensor_data := [mkReading seedEnvOk 0] }

/-- What a fragment of the `initialize_firebase` body guarantees, relative to
the state `s` it started from: returning `True` implies the flag is set and a
client handle is stored; returning `False` implies the state is untouched;
throwing implies `is_initialized` and `db` are untouched (only `app` may have
been partially assigned). -/
def InitOutcome (s : ConfigState) (r : ConfigState × Except Exn Bool) : Prop :=
  (r.2 = Except.ok true → r.1.is_initialized = true ∧ r.1.db.isSome = true) ∧
  (r.2 = Except.ok false → r.1 = s) ∧
  (∀ e, r.2 = Except.error e → r.1.is_initialized = s.is_initialized ∧ r.1.db = s.db)

theorem initOutcome_error (s : ConfigState) (e : Exn) :
    InitOutcome s (s, Except.error e) := by
  unfold InitOutcome; simp

theorem initOutcome_false (s : ConfigState) :
    InitOutcome s (s, Except.ok false) := by
  unfold InitOutcome; simp

theorem attachApp_outcome (env : InitEnv) (s : ConfigState) (a : App) :
    InitOutcome s (attachApp env s a) := by
  unfold InitOutcome attachApp
  cases env.firestoreClient <;> simp

theorem credInit_outcome (env : InitEnv) (s : ConfigState) (c : Cred) :
    InitOutcome s (credInit env s c) := by
  unfold credInit
  cases env.initApp c with
  | error e => exact initOutcome_error s e
  | ok a => exact attachApp_outcome env s a

theorem gacBranch_outcome (env : InitEnv) (s : ConfigState) :
    InitOutcome s (gacBranch env s) := by
  unfold gacBranch
  by_cases hg : envTruthy env.gac = true
  · simp only [hg, if_true]
    cases env.applicationDefault with
    | error e => exact initOutcome_error s e
    | ok c => exact credInit_outcome env s c
  · simp only [hg, if_false]
    exact initOutcome_false s

theorem init_body_outcome (env : InitEnv) (s : ConfigState) :
    InitOutcome s (init_body env s) := by
  unfold init_body
  by_cases h1 : env.appsNonEmpty = true
  · simp only [h1, if_true]
    cases env.getApp with
    | error e => exact initOutcome_error s e
    | ok a => exact attachApp_outcome env s a
  · simp only [h1, if_false]
    by_cases h2 : env.localFileExists = true
    · simp only [h2, if_true]
      cases env.certificateFile with
      | error e => exact initOutcome_error s e
      | ok c => exact credInit_outcome env s c
    · simp only [h2, if_false]
      cases env.fsk with
      | none => exact gacBranch_outcome env s
      | some v =>
        by_cases hv : v = ""
        · simp only [hv, if_pos rfl]
          exact gacBranch_outcome env s
        · simp only [if_neg hv]
          rcases hj : env.jsonLoads v with e | j
          · simp only [hj]
            exact initOutcome_error s e
          · simp only [hj]
            rcases hc : env.certificateInfo j with e | c
            · simp only [hc]
              exact initOutcome_error s e
            · simp only [hc]
              exact credInit_outcome env s c

theorem initialize_firebase_eq (env : InitEnv) (s : ConfigState) :
    initialize_firebase env s =
      ((init_body env s).1,
        match (init_body env s).2 with
        | Except.ok b => b
        | Except.error _ => false) := by
  unfold initialize_firebase
  rcases h : init_body env s with ⟨s1, r⟩
  cases r <;> simp

theorem sensorLoop_ok_of_none (env : SeedEnv) :
    ∀ (l : List ℕ) (st : Store), (∀ h ∈ l, env.sensorAddExn h = none) →
      sensorLoop env l st =
        ({ st with sensor_data := st.sensor_data ++ l.map (mkReading env) }, Except.ok ()) := by
  intro l
  induction l with
  | nil => intro st _; simp [sensorLoop]
  | cons h rest ih =>
    intro st hall
    have hh : env.sensorAddExn h = none := hall h (by simp)
    have hr : ∀ x ∈ rest, env.sensorAddExn x = none := fun x hx => hall x (by simp [hx])
    simp only [sensorLoop, hh]
    rw [ih _ hr]
    simp

theorem sensorLoop_sensor_of_ok (env : SeedEnv) :
    ∀ (l : List ℕ) (st st1 : Store) (u : Unit),
      sensorLoop env l st = (st1, Except.ok u) →
      st1.sensor_data = st.sensor_data ++ l.map (mkReading env) := by
  intro l
  induction l with
  | nil =>
    intro st st1 u h
    simp only [sensorLoop] at h
    injection h with h1 h2
    subst h1
    simp
  | cons hd rest ih =>
    intro st st1 u h
    rcases hh : env.sensorAddExn hd with _ | e
    · simp only [sensorLoop, hh] at h
      have := ih _ _ _ h
      simpa [List.append_assoc] using this
    · simp [sensorLoop, hh] at h

theorem sensorLoop_firstFail (env : SeedEnv) (k : ℕ) (e : Exn)
    (hk : env.sensorAddExn k = some e) :
    ∀ (b a : ℕ) (st : Store), a ≤ k → k < a + b →
      (∀ i, a ≤ i → i < k → env.sensorAddExn i = none) →
      sensorLoop env (List.range' a b) st =
        ({ st with
            sensor_data := st.sensor_data ++ (List.range' a (k - a)).map (mkReading env) },
         Except.error e) := by
  intro b
  induction b with
  | zero =>
    intro a st h1 h2 _
    exact absurd h2 (by omega)
  | succ b ih =>
    intro a st h1 h2 hnone
    rw [List.range'_succ]
    rcases Nat.eq_or_lt_of_le h1 with heq | hlt
    · subst heq
      simp only [sensorLoop, hk]
      simp [Nat.sub_self, List.range']
    · have ha : env.sensorAddExn a = none := hnone a le_rfl hlt
      simp only [sensorLoop, ha]
      rw [ih (a + 1) _ (by omega) (by omega) (fun i hi1 hi2 => hnone i (by omega) hi2)]
      have hsplit : List.range' a (k - a) = a :: List.range' (a + 1) (k - (a + 1)) := by
        have hd : k - a = (k - (a + 1)) + 1 := by omega
        rw [hd, List.range'_succ]
      rw [hsplit]
      simp [List.append_assoc]

theorem sensorLoop_fields (env : SeedEnv) :
    ∀ (l : List ℕ) (st : Store),
      ((sensorLoop env l st).1.alerts = st.alerts ∧
       (sensorLoop env l st).1.system_settings = st.system_settings) := by
  intro l
  induction l with
  | nil => intro st; simp [sensorLoop]
  | cons hd rest ih =>
    intro st
    rcases hh : env.sensorAddExn hd with _ | e
    · simp only [sensorLoop, hh]
      exact ih _
    · simp [sensorLoop, hh]

theorem alertLoop_ok_of_none (env : SeedEnv) :
    ∀ (l : List ℕ) (st : Store), (∀ k ∈ l, env.alertAddExn k = none) →
      alertLoop env l st =
        ({ st with alerts := st.alerts ++ l.map (mkAlert env) }, Except.ok ()) := by
  intro l
  induction l with
  | nil => intro st _; simp [alertLoop]
  | cons h rest ih =>
    intro st hall
    have hh : env.alertAddExn h = none := hall h (by simp)
    have hr : ∀ x ∈ rest, env.alertAddExn x = none := fun x hx => hall x (by simp [hx])
    simp only [alertLoop, hh]
    rw [ih _ hr]
    simp

theorem alertLoop_firstFail (env : SeedEnv) (k : ℕ) (e : Exn)
    (hk : env.alertAddExn k = some e) :
    ∀ (b a : ℕ) (st : Store), a ≤ k → k < a + b →
      (∀ i, a ≤ i → i < k → env.alertAddExn i = none) →
      alertLoop env (List.range' a b) st =
        ({ st with alerts := st.alerts ++ (List.range' a (k - a)).map (mkAlert env) },
         Except.error e) := by
  intro b
  induction b with
  | zero =>
    intro a st h1 h2 _
    exact absurd h2 (by omega)
  | succ b ih =>
    intro a st h1 h2 hnone
    rw [List.range'_succ]
    rcases Nat.eq_or_lt_of_le h1 with heq | hlt
    · subst heq
      simp only [alertLoop, hk]
      simp [Nat.sub_self, List.range']
    · have ha : env.alertAddExn a = none := hnone a le_rfl hlt
      simp only [alertLoop, ha]
      rw [ih (a + 1) _ (by omega) (by omega) (fun i hi1 hi2 => hnone i (by omega) hi2)]
      have hsplit : List.range' a (k - a) = a :: List.range' (a + 1) (k - (a + 1)) := by
        have hd : k - a = (k - (a + 1)) + 1 := by omega
        rw [hd, List.range'_succ]
      rw [hsplit]
      simp [List.append_assoc]

theorem alertLoop_fields (env : SeedEnv) :
    ∀ (l : List ℕ) (st : Store),
      ((alertLoop env l st).1.sensor_data = st.sensor_data ∧
       (alertLoop env l st).1.system_settings = st.system_settings) := by
  intro l
  induction l with
  | nil => intro st; simp [alertLoop]
  | cons hd rest ih =>
    intro st
    rcases hh : env.alertAddExn hd with _ | e
    · simp only [alertLoop, hh]
      exact ih _
    · simp [alertLoop, hh]

theorem seed_unavailable (env : SeedEnv) (s : ConfigState) (store : Store)
    (h : is_available s = false) :
    create_sample_data env s store = (store, false) := by
  unfold create_sample_data seed_body
  simp [h]

theorem seed_skips_of_nonempty (env : SeedEnv) (s : ConfigState) (store : Store)
    (hav : is_available s = true) (hp : env.probeExn = none)
    (hne : store.sensor_data ≠ []) :
    create_sample_data env s store = (store, true) := by
  unfold create_sample_data seed_body
  rcases hcons : store.sensor_data with _ | ⟨d, rest⟩
  · exact absurd hcons hne
  · simp [hav, hp, hcons]

theorem create_eq_true_body (env : SeedEnv) (s : ConfigState) (store st1 : Store)
    (h : create_sample_data env s store = (st1, true)) :
    seed_body env s store = (st1, Except.ok true) := by
  unfold create_sample_data at h
  rcases hb : seed_body env s store with ⟨st, r⟩
  rw [hb] at h
  cases r with
  | ok b =>
    cases b
    · simp at h
    · injection h with h1 h2
      subst h1
      rfl
  | error e => simp at h

theorem seed_body_true_nonempty (env : SeedEnv) (s : ConfigState) (store st1 : Store)
    (h : seed_body env s store = (st1, Except.ok true)) :
    st1.sensor_data ≠ [] := by
  unfold seed_body at h
  by_cases hav : is_available s = false
  · rw [if_pos hav] at h
    simp at h
  · rw [if_neg hav] at h
    rcases hpe : env.probeExn with _ | e
    · simp only [hpe] at h
      by_cases hlen : 0 < (store.sensor_data.take 1).length
      · rw [if_pos hlen] at h
        injection h with h1 h2
        rw [← h1]
        intro hnil
        rw [hnil] at hlen
        simp at hlen
      · rw [if_neg hlen] at h
        rcases hs : sensorLoop env (List.range 24) store with ⟨stA, rA⟩
        simp only [hs] at h
        cases rA with
        | error e => simp at h
        | ok u =>
          have hsen := sensorLoop_sensor_of_ok env _ _ _ _ hs
          rcases ha : alertLoop env (List.range 3) stA with ⟨stB, rB⟩
          simp only [ha] at h
          cases rB with
          | error e => simp at h
          | ok u2 =>
            have halt := (alertLoop_fields env (List.range 3) stA).1
            rw [ha] at halt
            rcases hset : env.settingsAddExn with _ | e
            · simp only [hset] at h
              injection h with h1 h2
              rw [← h1]
              show stB.sensor_data ≠ []
              rw [halt, hsen]
              simp
            · simp only [hset] at h
              simp at h
    · simp only [hpe] at h
      simp at h

theorem seed_success_eq (env : SeedEnv) (s : ConfigState) (store : Store)
    (hav : is_available s = true) (hp : env.probeExn = none)
    (he : store.sensor_data = [])
    (h1 : ∀ i, env.sensorAddExn i = none) (h2 : ∀ i, env.alertAddExn i = none)
    (h3 : env.settingsAddExn = none) :
    create_sample_data env s store =
      ({ store with
          sensor_data := (List.range 24).map (mkReading env),
          alerts := store.alerts ++ (List.range 3).map (mkAlert env),
          system_settings := store.system_settings ++ [mkSettings env] }, true) := by
  unfold create_sample_data seed_body
  rw [hav]
  simp only [hp, he]
  rw [sensorLoop_ok_of_none env (List.range 24) store (fun x _ => h1 x)]
  simp only [alertLoop_ok_of_none env (List.range 3) _ (fun x hx => h2 x), h3, he]
  simp

theorem py_round_ge_floor (x : ℚ) : ⌊x⌋ ≤ py_round x := by
  unfold py_round
  split
  · omega
  · split
    · omega
    · split <;> omega

theorem py_round_le_ceil (x : ℚ) : py_round x ≤ ⌈x⌉ := by
  have hfc : ⌊x⌋ ≤ ⌈x⌉ := Int.floor_le_ceil x
  have key : (1 : ℚ)/2 ≤ x - ⌊x⌋ → ⌊x⌋ + 1 ≤ ⌈x⌉ := by
    intro hhalf
    have hlt : (⌊x⌋ : ℚ) < x := by linarith
    have hle : x ≤ (⌈x⌉ : ℚ) := Int.le_ceil x
    have hq : (⌊x⌋ : ℚ) < (⌈x⌉ : ℚ) := lt_of_lt_of_le hlt hle
    have hz : ⌊x⌋ < ⌈x⌉ := by exact_mod_cast hq
    omega
  unfold py_round
  split
  · exact hfc
  · rename_i hcond1
    split
    · rename_i hcond2
      exact key (by linarith)
    · rename_i hcond2
      split
      · exact hfc
      · exact key (le_of_not_lt hcond1)

theorem roundTo_bounds (n : ℕ) (a b : ℤ) (x : ℚ)
    (ha : (a : ℚ) ≤ x) (hb : x ≤ (b : ℚ)) :
    (a : ℚ) ≤ roundTo n x ∧ roundTo n x ≤ (b : ℚ) := by
  have hp : (0 : ℚ) < 10 ^ n := by positivity
  have hflo : a * 10 ^ n ≤ ⌊x * 10 ^ n⌋ := by
    rw [Int.le_floor]
    push_cast
    exact mul_le_mul_of_nonneg_right ha hp.le
  have hcei : ⌈x * 10 ^ n⌉ ≤ b * 10 ^ n := by
    rw [Int.ceil_le]
    push_cast
    exact mul_le_mul_of_nonneg_right hb hp.le
  have hlo : a * 10 ^ n ≤ py_round (x * 10 ^ n) :=
    le_trans hflo (py_round_ge_floor _)
  have hhi : py_round (x * 10 ^ n) ≤ b * 10 ^ n :=
    le_trans (py_round_le_ceil _) hcei
  constructor
  · rw [roundTo, le_div_iff₀ hp]
    exact_mod_cast hlo
  · rw [roundTo, div_le_iff₀ hp]
    exact_mod_cast hhi

theorem uniform_bounds (a b r : ℚ) (hab : a ≤ b) (h0 : 0 ≤ r) (h1 : r ≤ 1) :
    a ≤ uniform a b r ∧ uniform a b r ≤ b := by
  unfold uniform
  have hge : 0 ≤ (b - a) * r := mul_nonneg (by linarith) h0
  have hle : (b - a) * r ≤ (b - a) * 1 :=
    mul_le_mul_of_nonneg_left h1 (by linarith)
  constructor
  · linarith
  · linarith

theorem mkReading_bounds (env : SeedEnv) (h : ℕ)
    (hrand : ∀ k, 0 ≤ env.rand k ∧ env.rand k ≤ 1) :
    20 ≤ (mkReading env h).temperature ∧ (mkReading env h).temperature ≤ 30 ∧
    4 ≤ (mkReading env h).dissolved_oxygen ∧ (mkReading env h).dissolved_oxygen ≤ 12 ∧
    0 ≤ (mkReading env h).ammonia ∧ (mkReading env h).ammonia ≤ 5 := by
  obtain ⟨u1, u2⟩ :=
    uniform_bounds 20 30 (env.rand (3 * h)) (by norm_num) (hrand _).1 (hrand _).2
  obtain ⟨v1, v2⟩ :=
    uniform_bounds 4 12 (env.rand (3 * h + 1)) (by norm_num) (hrand _).1 (hrand _).2
  obtain ⟨w1, w2⟩ :=
    uniform_bounds 0 5 (env.rand (3 * h + 2)) (by norm_num) (hrand _).1 (hrand _).2
  have ht := roundTo_bounds 1 20 30 _ (by exact_mod_cast u1) (by exact_mod_cast u2)
  have hd := roundTo_bounds 2 4 12 _ (by exact_mod_cast v1) (by exact_mod_cast v2)
  have ham := roundTo_bounds 3 0 5 _ (by exact_mod_cast w1) (by exact_mod_cast w2)
  refine ⟨?_, ?_, ?_, ?_, ?_, ?_⟩
  · exact_mod_cast ht.1
  · exact_mod_cast ht.2
  · exact_mod_cast hd.1
  · exact_mod_cast hd.2
  · exact_mod_cast ham.1
  · exact_mod_cast ham.2

theorem init_noCredential_eq (env : InitEnv) (s : ConfigState)
    (h1 : env.appsNonEmpty = false) (h2 : env.localFileExists = false)
    (h3 : envTruthy env.fsk = false) (h4 : envTruthy env.gac = false) :
    initialize_firebase env s = (s, false) := by
  rcases hf : env.fsk with _ | v
  · simp [initialize_firebase, init_body, gacBranch, h1, h2, hf, h4]
  · have hv : v = "" := by
      rw [hf] at h3
      simpa [envTruthy] using h3
    simp [initialize_firebase, init_body, gacBranch, h1, h2, hf, hv, h4]

/-- C1: `initialize()` attempts credential strategies in strict priority
order.  (1) With an already-initialized process-wide app, the result is
unchanged however the file, both environment variables and all lower
strategies' outcomes vary.  (2) With no app and the local credential file
present, the result is invariant under `FIREBASE_SERVICE_ACCOUNT_KEY`, the
JSON parser, `GOOGLE_APPLICATION_CREDENTIALS` and the default-credential
loader -- in particular, when both the file and the environment variable
are set, the file is used and the variable is never consulted.  (3) With no
app and no file and a truthy `FIREBASE_SERVICE_ACCOUNT_KEY`, the result is
invariant under the file loader and the `GOOGLE_APPLICATION_CREDENTIALS`
strategy.  (4) Next comes ambient/default credentials when
`GOOGLE_APPLICATION_CREDENTIALS` is truthy.  (5) With no strategy
applicable, the call reports unconfigured: it returns `false` with the
state untouched.  (6) On the file path a successful certificate load,
app initialization and client fetch yield `true`. -/
theorem init_priority_order :
    (∀ (e : InitEnv) (s : ConfigState) lf f g cf jl ci ad ia,
      e.appsNonEmpty = true →
      initialize_firebase
        { e with localFileExists := lf, fsk := f, gac := g, certificateFile := cf,
                 jsonLoads := jl, certificateInfo := ci, applicationDefault := ad,
                 initApp := ia } s
        = initialize_firebase e s) ∧
    (∀ (e : InitEnv) (s : ConfigState) f g jl ci ad ga,
      e.appsNonEmpty = false → e.localFileExists = true →
      initialize_firebase
        { e with fsk := f, gac := g, jsonLoads := jl, certificateInfo := ci,
                 applicationDefault := ad, getApp := ga } s
        = initialize_firebase e s) ∧
    (∀ (e : InitEnv) (s : ConfigState) (v : String) cf g ad ga,
      e.appsNonEmpty = false → e.localFileExists = false → e.fsk = some v → v ≠ "" →
      initialize_firebase
        { e with certificateFile := cf, gac := g, applicationDefault := ad, getApp := ga } s
        = initialize_firebase e s) ∧
    (∀ (e : InitEnv) (s : ConfigState) cf jl ci ga,
      e.appsNonEmpty = false → e.localFileExists = false → envTruthy e.fsk = false →
      envTruthy e.gac = true →
      initialize_firebase
        { e with certificateFile := cf, jsonLoads := jl, certificateInfo := ci, getApp := ga } s
        = initialize_firebase e s) ∧
    (∀ (e : InitEnv) (s : ConfigState),
      e.appsNonEmpty = false → e.localFileExists = false → envTruthy e.fsk = false →
      envTruthy e.gac = false →
      initialize_firebase e s = (s, false)) ∧
    (∀ (e : InitEnv) (s : ConfigState) (c : Cred) (a : App) (d : Db),
      e.appsNonEmpty = false → e.localFileExists = true →
      e.certificateFile = Except.ok c → e.initApp c = Except.ok a →
      e.firestoreClient = Except.ok d →
      initialize_firebase e s =
        ({ app := some a, db := some d, is_initialized := true }, true)) := by
  refine ⟨?_, ?_, ?_, ?_, ?_, ?_⟩
  · intro e s lf f g cf jl ci ad ia h
    simp [initialize_firebase, init_body, attachApp, h]
  · intro e s f g jl ci ad ga h1 h2
    simp [initialize_firebase, init_body, credInit, attachApp, h1, h2]
  · intro e s v cf g ad ga h1 h2 hf hv
    simp [initialize_firebase, init_body, credInit, attachApp, h1, h2, hf, hv]
  · intro e s cf jl ci ga h1 h2 h3 h4
    rcases hf : e.fsk with _ | v
    · simp [initialize_firebase, init_body, gacBranch, credInit, attachApp, h1, h2, hf, h4]
    · have hv : v = "" := by
        rw [hf] at h3
        simpa [envTruthy] using h3
      simp [initialize_firebase, init_body, gacBranch, credInit, attachApp,
        h1, h2, hf, hv, h4]
  · intro e s h1 h2 h3 h4
    rcases hf : e.fsk with _ | v
    · simp [initialize_firebase, init_body, gacBranch, h1, h2, hf, h4]
    · have hv : v = "" := by
        rw [hf] at h3
        simpa [envTruthy] using h3
      simp [initialize_firebase, init_body, gacBranch, h1, h2, hf, hv, h4]
  · intro e s c a d h1 h2 hc ha hd
    simp [initialize_firebase, init_body, credInit, attachApp, h1, h2, hc, ha, hd]

/-- Witness for C1: each conjunct of `init_priority_order` applied at a
concrete environment; in particular the local file beats a set
`FIREBASE_SERVICE_ACCOUNT_KEY`. -/
theorem init_priority_order_witness :
    (initialize_firebase
      { initEnvClientDown with
        localFileExists := true,
        fsk := some "x",
        gac := some "y",
        certificateFile := Except.ok 9,
        jsonLoads := fun _ => Except.ok 9,
        certificateInfo := fun _ => Except.ok 9,
        applicationDefault := Except.ok 9,
        initApp := fun _ => Except.ok 9 } initialState
      = initialize_firebase initEnvClientDown initialState) ∧
    (initialize_firebase
      { initEnvFileAndKey with
        fsk := some "other",
        gac := some "y",
        jsonLoads := fun _ => Except.error (Exn.mk "boom"),
        certificateInfo := fun _ => Except.error (Exn.mk "boom"),
        applicationDefault := Except.error (Exn.mk "boom"),
        getApp := Except.ok 9 } initialState
      = initialize_firebase initEnvFileAndKey initialState) ∧
    (initialize_firebase
      { initEnvBadJson with
        certificateFile := Except.error (Exn.mk "boom"),
        gac := some "y",
        applicationDefault := Except.error (Exn.mk "boom"),
        getApp := Except.ok 9 } initialState
      = initialize_firebase initEnvBadJson initialState) ∧
    (initialize_firebase initEnvNoCred initialState = (initialState, false)) ∧
    (initialize_firebase initEnvFileAndKey initialState =
      ({ app := some 1, db := some 2, is_initialized := true }, true)) := by
  refine ⟨?_, ?_, ?_, ?_, ?_⟩
  · exact init_priority_order.1 initEnvClientDown initialState true (some "x") (some "y")
      (Except.ok 9) (fun _ => Except.ok 9) (fun _ => Except.ok 9) (Except.ok 9)
      (fun _ => Except.ok 9) rfl
  · exact init_priority_order.2.1 initEnvFileAndKey initialState (some "other") (some "y")
      (fun _ => Except.error (Exn.mk "boom")) (fun _ => Except.error (Exn.mk "boom"))
      (Except.error (Exn.mk "boom")) (Except.ok 9) rfl rfl
  · exact init_priority_order.2.2.1 initEnvBadJson initialState "not-json"
      (Except.error (Exn.mk "boom")) (some "y") (Except.error (Exn.mk "boom"))
      (Except.ok 9) rfl rfl rfl (by decide)
  · exact init_priority_order.2.2.2.2.1 initEnvNoCred initialState rfl rfl rfl rfl
  · exact init_priority_order.2.2.2.2.2 initEnvFileAndKey initialState 0 1 2
      rfl rfl rfl rfl rfl

/-- C2: neither public entry point ever raises to its caller: in every
environment (missing file, malformed credential JSON, SDK exception during
initialization or during any seeding write), whenever the function body
throws, `initialize_firebase` / `create_sample_data` return `false` (with
the state the body had built) instead of propagating the exception. -/
theorem entry_points_never_raise :
    (∀ (env : InitEnv) (s : ConfigState) (e : Exn),
      (init_body env s).2 = Except.error e →
      initialize_firebase env s = ((init_body env s).1, false)) ∧
    (∀ (env : SeedEnv) (s : ConfigState) (store : Store) (e : Exn),
      (seed_body env s store).2 = Except.error e →
      create_sample_data env s store = ((seed_body env s store).1, false)) := by
  constructor
  · intro env s e h
    rcases hb : init_body env s with ⟨s1, r⟩
    rw [hb] at h
    cases r with
    | ok b => simp at h
    | error e2 =>
      unfold initialize_firebase
      rw [hb]
  · intro env s store e h
    rcases hb : seed_body env s store with ⟨st, r⟩
    rw [hb] at h
    cases r with
    | ok b => simp at h
    | error e2 =>
      unfold create_sample_data
      rw [hb]

/-- Witness for C2: a malformed `FIREBASE_SERVICE_ACCOUNT_KEY` makes the
initialization body throw and the entry point return `false`; a throwing
probe makes the seeding body throw and the entry point return `false`. -/
theorem entry_points_never_raise_witness :
    (init_body initEnvBadJson initialState).2 = Except.error (Exn.mk "Expecting value") ∧
    initialize_firebase initEnvBadJson initialState
      = ((init_body initEnvBadJson initialState).1, false) ∧
    (seed_body seedEnvProbeFail availState emptyStore).2
      = Except.error (Exn.mk "probe failed") ∧
    create_sample_data seedEnvProbeFail availState emptyStore
      = ((seed_body seedEnvProbeFail availState emptyStore).1, false) := by
  refine ⟨rfl, ?_, rfl, ?_⟩
  · exact entry_points_never_raise.1 initEnvBadJson initialState
      (Exn.mk "Expecting value") rfl
  · exact entry_points_never_raise.2 seedEnvProbeFail availState emptyStore
      (Exn.mk "probe failed") rfl

/-- C5: `get_firestore_client` returns a non-null handle if and only if
`is_available` is true; when unavailable it returns `none` without raising. -/
theorem get_client_iff_available (s : ConfigState) :
    (get_firestore_client s ≠ none ↔ is_available s = true) ∧
    (is_available s = false → get_firestore_client s = none) := by
  constructor
  · constructor
    · intro h
      by_cases hav : is_available s = true
      · exact hav
      · exact absurd (by simp [get_firestore_client, hav]) h
    · intro hav
      simp only [get_firestore_client, hav, if_true]
      have hdb : s.db.isSome = true := by
        have hc := hav
        simp only [is_available, Bool.and_eq_true] at hc
        exact hc.2
      rcases Option.isSome_iff_exists.mp hdb with ⟨d, hd⟩
      simp [hd]
  · intro hav
    simp [get_firestore_client, hav]

/-- Witness for C5 at an available and an unavailable state. -/
theorem get_client_iff_available_witness :
    ((get_firestore_client availState ≠ none ↔ is_available availState = true) ∧
      (is_available availState = false → get_firestore_client availState = none)) ∧
    get_firestore_client availState = some 2 ∧
    get_firestore_client initialState = none :=
  ⟨get_client_iff_available availState, rfl, rfl⟩

/-- C6: with no local credential file, neither environment variable set
(in the Python truthiness sense) and no app already initialized,
`initialize()` returns `false`, leaves the fresh state untouched, and
`is_available()` is false afterwards. -/
theorem init_unconfigured (env : InitEnv) (s : ConfigState)
    (h1 : env.appsNonEmpty = false) (h2 : env.localFileExists = false)
    (h3 : envTruthy env.fsk = false) (h4 : envTruthy env.gac = false)
    (h5 : s.is_initialized = false) :
    (initialize_firebase env s).2 = false ∧
    is_available (initialize_firebase env s).1 = false := by
  rw [init_noCredential_eq env s h1 h2 h3 h4]
  simp [is_available, h5]

/-- Witness for C6: the no-credential environment on the fresh state. -/
theorem init_unconfigured_witness :
    (initialize_firebase initEnvNoCred initialState).2 = false ∧
    is_available (initialize_firebase initEnvNoCred initialState).1 = false :=
  init_unconfigured initEnvNoCred initialState rfl rfl rfl rfl rfl

/-- C9: constructing the `FirebaseConfig` object performs one initialization
attempt whose boolean result is discarded (the constructed state is exactly
the state component of that one call), and construction never fails: with
no credentials at all the module-level singleton is still constructed, as
the fresh unavailable state. -/
theorem constructor_total :
    (∀ env : InitEnv,
      initialize_firebase env initialState =
        (mkFirebaseConfig env, (initialize_firebase env initialState).2)) ∧
    (∀ env : InitEnv,
      env.appsNonEmpty = false → env.localFileExists = false →
      envTruthy env.fsk = false → envTruthy env.gac = false →
      mkFirebaseConfig env = initialState) := by
  constructor
  · intro env
    rfl
  · intro env h1 h2 h3 h4
    unfold mkFirebaseConfig
    rw [init_noCredential_eq env initialState h1 h2 h3 h4]

/-- Witness for C9 at the no-credential environment. -/
theorem constructor_total_witness :
    initialize_firebase initEnvNoCred initialState =
      (mkFirebaseConfig initEnvNoCred,
        (initialize_firebase initEnvNoCred initialState).2) ∧
    mkFirebaseConfig initEnvNoCred = initialState :=
  ⟨constructor_total.1 initEnvNoCred, constructor_total.2 initEnvNoCred rfl rfl rfl rfl⟩

/-- C10: on a not-yet-initialized object, `initialize_firebase` returns
`true` if and only if `is_available` holds immediately afterwards; on every
false-returning path `is_initialized` is left unchanged (never set to
`true`); and on an exception path the `app` field may already have been
assigned even though the call returns `false`. -/
theorem init_true_iff_available :
    (∀ (env : InitEnv) (s : ConfigState), s.is_initialized = false →
      ((initialize_firebase env s).2 = true ↔
        is_available (initialize_firebase env s).1 = true)) ∧
    (∀ (env : InitEnv) (s : ConfigState),
      (initialize_firebase env s).2 = false →
      (initialize_firebase env s).1.is_initialized = s.is_initialized) ∧
    (∃ env : InitEnv,
      (initialize_firebase env initialState).2 = false ∧
      (initialize_firebase env initialState).1.app ≠ none) := by
  refine ⟨?_, ?_, ?_⟩
  · intro env s hs
    obtain ⟨ho1, ho2, ho3⟩ := init_body_outcome env s
    simp only [initialize_firebase_eq env s]
    rcases hb : (init_body env s).2 with e | b
    · obtain ⟨hi, hd⟩ := ho3 e hb
      simp [is_available, hi, hs]
    · cases b
      · have h1 := ho2 hb
        rw [h1]
        simp [is_available, hs]
      · obtain ⟨hi, hd⟩ := ho1 hb
        simp [is_available, hi, hd]
  · intro env s hfalse
    obtain ⟨ho1, ho2, ho3⟩ := init_body_outcome env s
    simp only [initialize_firebase_eq env s] at hfalse ⊢
    rcases hb : (init_body env s).2 with e | b
    · exact (ho3 e hb).1
    · cases b
      · rw [ho2 hb]
      · rw [hb] at hfalse
        simp at hfalse
  · exact ⟨initEnvClientDown, by decide, by decide⟩

/-- Witness for C10: the fresh state, plus the concrete exception path on
which `app` was assigned before `firestore.client()` threw. -/
theorem init_true_iff_available_witness :
    initialState.is_initialized = false ∧
    ((initialize_firebase initEnvNoCred initialState).2 = true ↔
      is_available (initialize_firebase initEnvNoCred initialState).1 = true) ∧
    (initialize_firebase initEnvClientDown initialState).1.app = some 7 := by
  exact ⟨rfl, init_true_iff_available.1 initEnvNoCred initialState rfl, by decide⟩

/-- C7: when the connection is not available, `seed_sample_data()` is a
no-op returning `false`: for every environment -- so in particular without
consulting the probe or any write outcome -- the store is unchanged. -/
theorem seed_noop_unavailable (env : SeedEnv) (s : ConfigState) (store : Store)
    (h : is_available s = false) :
    create_sample_data env s store = (store, false) :=
  seed_unavailable env s store h

/-- Witness for C7: the fresh (unavailable) state with every operation
primed to succeed. -/
theorem seed_noop_unavailable_witness :
    is_available initialState = false ∧
    create_sample_data seedEnvOk initialState emptyStore = (emptyStore, false) :=
  ⟨rfl, seed_noop_unavailable seedEnvOk initialState emptyStore rfl⟩

/-- C3: `seed_sample_data()` is idempotent on success: when at least one
document already exists in `sensor_data` (detected by the limit-1 probe),
the call performs zero writes (the store is returned unchanged) and
returns `true`; consequently a second call immediately after any successful
call writes nothing and returns `true`. -/
theorem seed_idempotent :
    (∀ (env : SeedEnv) (s : ConfigState) (store : Store),
      is_available s = true → env.probeExn = none → store.sensor_data ≠ [] →
      create_sample_data env s store = (store, true)) ∧
    (∀ (env env2 : SeedEnv) (s : ConfigState) (store st1 : Store),
      create_sample_data env s store = (st1, true) → env2.probeExn = none →
      create_sample_data env2 s st1 = (st1, true)) := by
  constructor
  · exact fun env s store hav hp hne => seed_skips_of_nonempty env s store hav hp hne
  · intro env env2 s store st1 h hp2
    have hav : is_available s = true := by
      cases hb : is_available s
      · rw [seed_unavailable env s store hb] at h
        simp at h
      · rfl
    have hne : st1.sensor_data ≠ [] :=
      seed_body_true_nonempty env s store st1 (create_eq_true_body env s store st1 h)
    exact seed_skips_of_nonempty env2 s st1 hav hp2 hne

/-- Witness for C3: with one document already present the call writes
nothing; a second call -- even one whose writes would all fail -- also
writes nothing and returns `true`. -/
theorem seed_idempotent_witness :
    is_available availState = true ∧
    oneDocStore.sensor_data ≠ [] ∧
    create_sample_data seedEnvOk availState oneDocStore = (oneDocStore, true) ∧
    create_sample_data seedEnvAddFail availState oneDocStore = (oneDocStore, true) := by
  have h1 : create_sample_data seedEnvOk availState oneDocStore = (oneDocStore, true) :=
    seed_idempotent.1 seedEnvOk availState oneDocStore rfl rfl
      (by simp [oneDocStore, emptyStore])
  exact ⟨rfl, by simp [oneDocStore, emptyStore], h1,
    seed_idempotent.2 seedEnvOk seedEnvAddFail availState oneDocStore oneDocStore h1 rfl⟩

/-- C4: on the fresh-seed path (available connection, empty `sensor_data`,
all writes succeeding, `random.random()` draws in `[0, 1]` and the clock
reading the same instant "now" at each call), `seed_sample_data` returns
`true` and produces exactly 24 sensor documents, each with temperature in
`[20, 30]`, dissolved oxygen in `[4, 12]`, ammonia in `[0, 5]`, location
`"Tank A"` and sensor id `"SENSOR_001"`, whose timestamps are exactly
`now, now - 1h, ..., now - 23h` in insertion order -- strictly decreasing
and spaced exactly one hour apart. -/
theorem seed_fresh_generates (env : SeedEnv) (s : ConfigState) (store : Store)
    (hav : is_available s = true) (hp : env.probeExn = none)
    (he : store.sensor_data = [])
    (h1 : ∀ i, env.sensorAddExn i = none) (h2 : ∀ i, env.alertAddExn i = none)
    (h3 : env.settingsAddExn = none)
    (hrand : ∀ k, 0 ≤ env.rand k ∧ env.rand k ≤ 1)
    (hclock : ∀ k, env.clock k = env.clock 0) :
    (create_sample_data env s store).2 = true ∧
    (create_sample_data env s store).1.sensor_data.length = 24 ∧
    (∀ d ∈ (create_sample_data env s store).1.sensor_data,
      20 ≤ d.temperature ∧ d.temperature ≤ 30 ∧
      4 ≤ d.dissolved_oxygen ∧ d.dissolved_oxygen ≤ 12 ∧
      0 ≤ d.ammonia ∧ d.ammonia ≤ 5 ∧
      d.location = "Tank A" ∧ d.sensor_id = "SENSOR_001") ∧
    (create_sample_data env s store).1.sensor_data.map SensorReading.timestamp
      = (List.range 24).map (fun i : ℕ => env.clock 0 - hourSec * (i : ℤ)) ∧
    List.Pairwise (fun t1 t2 => t2 < t1)
      ((create_sample_data env s store).1.sensor_data.map SensorReading.timestamp) := by
  have hE := seed_success_eq env s store hav hp he h1 h2 h3
  rw [hE]
  have hmap : ((List.range 24).map (mkReading env)).map SensorReading.timestamp
      = (List.range 24).map (fun i : ℕ => env.clock 0 - hourSec * (i : ℤ)) := by
    rw [List.map_map]
    apply List.map_congr_left
    intro i hi
    show env.clock i - hourSec * (i : ℤ) = env.clock 0 - hourSec * (i : ℤ)
    rw [hclock i]
  refine ⟨rfl, by simp, ?_, ?_, ?_⟩
  · intro d hd
    simp only [List.mem_map, List.mem_range] at hd
    obtain ⟨i, hi, rfl⟩ := hd
    obtain ⟨b1, b2, b3, b4, b5, b6⟩ := mkReading_bounds env i hrand
    exact ⟨b1, b2, b3, b4, b5, b6, rfl, rfl⟩
  · exact hmap
  · show List.Pairwise (fun t1 t2 => t2 < t1)
      (((List.range 24).map (mkReading env)).map SensorReading.timestamp)
    rw [hmap, List.pairwise_map]
    apply List.Pairwise.imp ?_ (List.pairwise_lt_range 24)
    intro a b hab
    have hab' : (a : ℤ) < (b : ℤ) := by exact_mod_cast hab
    show env.clock 0 - hourSec * (b : ℤ) < env.clock 0 - hourSec * (a : ℤ)
    have : hourSec * (a : ℤ) < hourSec * (b : ℤ) := by
      unfold hourSec
      linarith
    linarith

/-- Witness for C4: the frozen-clock, half-draw environment on the fresh
store, with the instantiated conclusions. -/
theorem seed_fresh_generates_witness :
    (∀ k, (0 : ℚ) ≤ seedEnvOk.rand k ∧ seedEnvOk.rand k ≤ 1) ∧
    (create_sample_data seedEnvOk availState emptyStore).2 = true ∧
    (create_sample_data seedEnvOk availState emptyStore).1.sensor_data.length = 24 ∧
    (create_sample_data seedEnvOk availState emptyStore).1.sensor_data.map
        SensorReading.timestamp
      = (List.range 24).map (fun i : ℕ => seedEnvOk.clock 0 - hourSec * (i : ℤ)) := by
  have hr : ∀ k, (0 : ℚ) ≤ seedEnvOk.rand k ∧ seedEnvOk.rand k ≤ 1 := by
    intro k
    constructor
    · norm_num [seedEnvOk]
    · norm_num [seedEnvOk]
  have h := seed_fresh_generates seedEnvOk availState emptyStore rfl rfl rfl
    (fun i => rfl) (fun i => rfl) rfl hr (fun k => rfl)
  exact ⟨hr, h.1, h.2.1, h.2.2.2.1⟩

/-- C8: seeding is not atomic.  Whichever write fails first -- the
`(k+1)`-st sensor write, the `(k+1)`-st alert write, or the settings
write -- `seed_sample_data` returns `false` and the store keeps exactly
the documents written before the failure: no rollback, leaving a
partially seeded store. -/
theorem seed_partial_failure_no_rollback :
    (∀ (env : SeedEnv) (s : ConfigState) (store : Store) (k : ℕ) (e : Exn),
      is_available s = true → env.probeExn = none → store.sensor_data = [] →
      (∀ i, i < k → env.sensorAddExn i = none) → k < 24 → env.sensorAddExn k = some e →
      create_sample_data env s store =
        ({ store with sensor_data := (List.range k).map (mkReading env) }, false)) ∧
    (∀ (env : SeedEnv) (s : ConfigState) (store : Store) (k : ℕ) (e : Exn),
      is_available s = true → env.probeExn = none → store.sensor_data = [] →
      (∀ i, env.sensorAddExn i = none) →
      (∀ i, i < k → env.alertAddExn i = none) → k < 3 → env.alertAddExn k = some e →
      create_sample_data env s store =
        ({ store with
            sensor_data := (List.range 24).map (mkReading env),
            alerts := store.alerts ++ (List.range k).map (mkAlert env) }, false)) ∧
    (∀ (env : SeedEnv) (s : ConfigState) (store : Store) (e : Exn),
      is_available s = true → env.probeExn = none → store.sensor_data = [] →
      (∀ i, env.sensorAddExn i = none) → (∀ i, env.alertAddExn i = none) →
      env.settingsAddExn = some e →
      create_sample_data env s store =
        ({ store with
            sensor_data := (List.range 24).map (mkReading env),
            alerts := store.alerts ++ (List.range 3).map (mkAlert env) }, false)) := by
  refine ⟨?_, ?_, ?_⟩
  · intro env s store k e hav hp he hpre hk hfail
    unfold create_sample_data seed_body
    rw [hav]
    simp only [hp, he]
    rw [List.range_eq_range']
    simp only [sensorLoop_firstFail env k e hfail 24 0 store (Nat.zero_le k) (by omega)
      (fun i hi1 hi2 => hpre i hi2)]
    simp [he, List.range_eq_range']
  · intro env s store k e hav hp he hsen hpre hk hfail
    unfold create_sample_data seed_body
    rw [hav]
    simp only [hp, he]
    rw [sensorLoop_ok_of_none env (List.range 24) store (fun x _ => hsen x)]
    rw [show (List.range 3) = List.range' 0 3 from List.range_eq_range' 3]
    simp only [alertLoop_firstFail env k e hfail 3 0 _ (Nat.zero_le k) (by omega)
      (fun i hi1 hi2 => hpre i hi2)]
    simp [he, List.range_eq_range']
  · intro env s store e hav hp he hsen halt hfail
    unfold create_sample_data seed_body
    rw [hav]
    simp only [hp, he]
    rw [sensorLoop_ok_of_none env (List.range 24) store (fun x _ => hsen x)]
    simp only [alertLoop_ok_of_none env (List.range 3) _ (fun x _ => halt x), hfail]
    simp [he]

/-- Witness for C8: a failure at the sixth sensor write leaves exactly the
five documents written before it; a failure at the settings write leaves
all 24 sensor documents and all 3 alerts. -/
theorem seed_partial_failure_no_rollback_witness :
    seedEnvAddFail.sensorAddExn 5 = some (Exn.mk "write failed") ∧
    create_sample_data seedEnvAddFail availState emptyStore =
      ({ emptyStore with
          sensor_data := (List.range 5).map (mkReading seedEnvAddFail) }, false) ∧
    create_sample_data seedEnvSettingsFail availState emptyStore =
      ({ emptyStore with
          sensor_data := (List.range 24).map (mkReading seedEnvSettingsFail),
          alerts := emptyStore.alerts ++
            (List.range 3).map (mkAlert seedEnvSettingsFail) }, false) := by
  refine ⟨rfl, ?_, ?_⟩
  · apply seed_partial_failure_no_rollback.1 seedEnvAddFail availState emptyStore 5
      (Exn.mk "write failed") rfl rfl rfl
    · intro i hi
      show (if i = 5 then some (Exn.mk "write failed") else none) = none
      rw [if_neg (by omega)]
    · omega
    · rfl
  · exact seed_partial_failure_no_rollback.2.2 seedEnvSettingsFail availState emptyStore
      (Exn.mk "write failed") rfl rfl rfl (fun i => rfl) (fun i => rfl) rfl
